import Mathlib

/-!
# Verification of the FemtoDerived data-model header

Shallow embedding of `PWGCF/DataModel/FemtoDerived.h` (O2Physics): the
enumerations, the parallel name tables, the table declarations with their
origin/description tags, the stored-column row types, and the dynamic
(derived) column accessors, together with proofs of the specified
properties of those accessors and declarations.

Stored floating-point columns are carried as rationals (every binary32
value is a rational); the dynamic kinematic accessors, which apply
transcendental functions, are embedded over the reals.  Unsigned 8-bit
columns are `Fin 256`, the 32-bit cut containers are `Fin (2 ^ 32)`.
-/

namespace o2.aod

namespace femtodreamparticle

/-! ## The `ParticleType` enumeration (source lines 76-84) -/

/-- `kTrack` of `enum ParticleType`. -/
def kTrack : Nat := 0
/-- `kV0` of `enum ParticleType`. -/
def kV0 : Nat := 1
/-- `kV0Child` of `enum ParticleType`. -/
def kV0Child : Nat := 2
/-- `kCascade` of `enum ParticleType`. -/
def kCascade : Nat := 3
/-- `kCascadeBachelor` of `enum ParticleType`. -/
def kCascadeBachelor : Nat := 4
/-- `kCharmHadron` of `enum ParticleType`. -/
def kCharmHadron : Nat := 5
/-- `kNParticleTypes`, the number of particle types. -/
def kNParticleTypes : Nat := 6

/-- `ParticleTypeName[kNParticleTypes]`: the name table parallel to
`ParticleType` (source line 92). -/
def ParticleTypeName : List String :=
  ["Tracks", "V0", "V0Child", "Cascade", "CascadeBachelor", "CharmHadron"]

/-- `TempFitVarName[kNParticleTypes-1]`: the template-fit-variable name
table (source line 93).  The C++ array is declared with
`kNParticleTypes - 1 = 5` slots and initialised with five names. -/
def TempFitVarName : List String :=
  ["/hDCAxy", "/hCPA", "/hDCAxy", "/hCPA", "/hDCAxy"]

/-! ## Dynamic (derived) columns (source lines 118-137)

The lambdas stored in the `DECLARE_SOA_DYNAMIC_COLUMN` declarations,
embedded over the reals. -/

/-- `Theta`: `[](float eta) { return 2.f * std::atan(std::exp(-eta)); }`. -/
noncomputable def Theta (eta : ℝ) : ℝ := 2 * Real.arctan (Real.exp (-eta))

/-- `Px`: `[](float pt, float phi) { return pt * std::sin(phi); }`. -/
noncomputable def Px (pt phi : ℝ) : ℝ := pt * Real.sin phi

/-- `Py`: `[](float pt, float phi) { return pt * std::cos(phi); }`. -/
noncomputable def Py (pt phi : ℝ) : ℝ := pt * Real.cos phi

/-- `Pz`: `[](float pt, float eta) { return pt * std::sinh(eta); }`. -/
noncomputable def Pz (pt eta : ℝ) : ℝ := pt * Real.sinh eta

/-- `P`: `[](float pt, float eta) { return pt * std::cosh(eta); }`. -/
noncomputable def P (pt eta : ℝ) : ℝ := pt * Real.cosh eta

end femtodreamparticle

/-! ## Rows of the declared tables

A row of a `DECLARE_SOA_TABLE` is the tuple of its stored (non-dynamic,
non-index) columns; the column storage types are taken from the
`DECLARE_SOA_COLUMN` declarations.  `uint8_t` columns are `Fin 256`,
`cutContainerType = uint32_t` columns are `Fin (2 ^ 32)`, `float`
columns are carried as rationals, and the self-referential
`Children` array-index column is a list of row indices. -/

/-- The stored-column content of one `FDParticles` row
(source lines 266-284). -/
structure FDParticleRow where
  fdCollisionId : ℤ
  pt : ℚ
  eta : ℚ
  phi : ℚ
  partType : Fin 256
  cut : Fin (2 ^ 32)
  pidcut : Fin (2 ^ 32)
  tempFitVar : ℚ
  childrenIds : List ℤ
  mLambda : ℚ
  mAntiLambda : ℚ

/-- The stored-column content of one `FDMCParticles` row
(source lines 360-367). -/
structure FDMCParticleRow where
  partOriginMCTruth : Fin 256
  pdgMCTruth : ℤ
  pt : ℚ
  eta : ℚ
  phi : ℚ

/-! ## Table declarations and their tags

Every `DECLARE_SOA_TABLE(Name, Origin, Description, ...)` in the header,
in source order, with its origin and description tag strings. -/

/-- One `DECLARE_SOA_TABLE` declaration: the C++ table name and its
origin/description tag pair. -/
structure TableDecl where
  cname : String
  origin : String
  description : String
deriving DecidableEq

/-- All tables declared in `FemtoDerived.h`, in source order, with their
origin and description tags. -/
def declaredTables : List TableDecl :=
  [⟨"FDCollisions", "AOD", "FDCOLLISION"⟩,
   ⟨"FDColMasks", "AOD", "FDCOLMASK"⟩,
   ⟨"FDDownSample", "AOD", "FDDOWNSAMPLE"⟩,
   ⟨"FDHfCand", "AOD", "FDHFCAND"⟩,
   ⟨"FDResultsHF", "AOD", "FDRESULTSHF"⟩,
   ⟨"FDHfCandMC", "AOD", "FDHFCANDMC"⟩,
   ⟨"FDHfCandMCGen", "AOD", "FDHFCANDMCGEN"⟩,
   ⟨"FDParticlesIndex", "AOD", "FDPARTICLEINDEX"⟩,
   ⟨"FDParticles", "AOD", "FDPARTICLE"⟩,
   ⟨"FDExtParticles", "AOD", "FDEXTPARTICLE"⟩,
   ⟨"FDMCParticles", "AOD", "FDMCPARTICLE"⟩,
   ⟨"FDExtMCParticles", "AOD", "FDEXTMCPARTICLE"⟩,
   ⟨"FDMCLabels", "AOD", "FDMCLabel"⟩,
   ⟨"FDExtMCLabels", "AOD", "FDExtMCLabel"⟩,
   ⟨"Hashes", "AOD", "HASH"⟩]

namespace femtodreamMCparticle

/-! ## The `ParticleOriginMCTruth` enumeration (source lines 321-332) -/

/-- `kPrimary` of `enum ParticleOriginMCTruth`. -/
def kPrimary : Nat := 0
/-- `kSecondary` of `enum ParticleOriginMCTruth`. -/
def kSecondary : Nat := 1
/-- `kMaterial` of `enum ParticleOriginMCTruth`. -/
def kMaterial : Nat := 2
/-- `kNotPrimary` of `enum ParticleOriginMCTruth`. -/
def kNotPrimary : Nat := 3
/-- `kFake` of `enum ParticleOriginMCTruth`. -/
def kFake : Nat := 4
/-- `kWrongCollision` of `enum ParticleOriginMCTruth`. -/
def kWrongCollision : Nat := 5
/-- `kSecondaryDaughterLambda` of `enum ParticleOriginMCTruth`. -/
def kSecondaryDaughterLambda : Nat := 6
/-- `kSecondaryDaughterSigmaplus` of `enum ParticleOriginMCTruth`. -/
def kSecondaryDaughterSigmaplus : Nat := 7
/-- `kElse` of `enum ParticleOriginMCTruth`. -/
def kElse : Nat := 8
/-- `kNOriginMCTruthTypes`, the number of origin types. -/
def kNOriginMCTruthTypes : Nat := 9

/-- `ParticleOriginMCTruthName[kNOriginMCTruthTypes]` (source lines
335-342): the C++ array is declared with nine slots but the initialiser
list supplies only seven strings; the remaining two slots are
value-initialised to the empty `std::string_view`. -/
def ParticleOriginMCTruthName : List String :=
  ["_Primary",
   "_Secondary",
   "_Material",
   "_NotPrimary",
   "_Fake",
   "_SecondaryDaughterLambda",
   "_SecondaryDaughterSigmaPlus",
   "",
   ""]

/-- The identifier of each `ParticleOriginMCTruth` enumerator, without
its `k` prefix, taken from the enum declaration in the source. -/
def originEnumIdent : Fin 9 → String
  | 0 => "Primary"
  | 1 => "Secondary"
  | 2 => "Material"
  | 3 => "NotPrimary"
  | 4 => "Fake"
  | 5 => "WrongCollision"
  | 6 => "SecondaryDaughterLambda"
  | 7 => "SecondaryDaughterSigmaplus"
  | 8 => "Else"

/-- The name belonging to an origin value under the convention
established by the first five entries of `ParticleOriginMCTruthName`:
an underscore followed by the enumerator identifier. -/
def intendedOriginName (o : Fin 9) : String := "_" ++ originEnumIdent o

end femtodreamMCparticle

/-! ## The crossed-rows-over-findable-clusters dynamic column

The lambda of `TPCCrossedRowsOverFindableCls` (source lines 144-147) is
`(float)tpcNClsCrossedRows / (float)tpcNClsFindable`: both `uint8_t`
operands convert to `float` exactly, and the single IEEE-754 binary32
division produces NaN for `0 / 0`, positive infinity for `n / 0` with
`n ≠ 0`, and otherwise the correctly rounded (round to nearest, ties to
even) finite quotient, which for these operand ranges is a normal
binary32 value. -/

/-- An IEEE-754 binary32 result as it matters here: a finite value
(carried as the exact rational it denotes), positive infinity, or NaN. -/
inductive Float32Val where
  | finite (q : ℚ)
  | posInf
  | nan
deriving DecidableEq

namespace femtodreamparticle

/-- Round a positive rational to the nearest IEEE-754 binary32 value
(round to nearest, ties to even), for arguments in the normal range; a
non-positive argument returns 0.  `Int.log 2 q` is the binary exponent,
so the unit in the last place is `2 ^ (Int.log 2 q - 23)`. -/
def roundB32 (q : ℚ) : ℚ :=
  if q ≤ 0 then 0
  else
    let ulp : ℚ := 2 ^ (Int.log 2 q - 23)
    let u : ℚ := q / ulp
    let m : ℤ :=
      if u - ⌊u⌋ < 1 / 2 then ⌊u⌋
      else if 1 / 2 < u - ⌊u⌋ then ⌊u⌋ + 1
      else if ⌊u⌋ % 2 = 0 then ⌊u⌋ else ⌊u⌋ + 1
    (m : ℚ) * ulp

/-- `TPCCrossedRowsOverFindableCls`:
`[](uint8_t tpcNClsFindable, uint8_t tpcNClsCrossedRows) -> float {
  return (float)tpcNClsCrossedRows / (float)tpcNClsFindable; }`,
with the binary32 division semantics spelled out. -/
def tpcCrossedRowsOverFindableCls
    (tpcNClsFindable tpcNClsCrossedRows : Fin 256) : Float32Val :=
  if tpcNClsFindable.val = 0 then
    if tpcNClsCrossedRows.val = 0 then Float32Val.nan else Float32Val.posInf
  else
    Float32Val.finite
      (roundB32 ((tpcNClsCrossedRows.val : ℚ) / (tpcNClsFindable.val : ℚ)))

end femtodreamparticle

/-- A particle row whose `partType` byte is 200, a value outside the
six-member `ParticleType` enumeration. -/
def outOfRangePartTypeRow : FDParticleRow :=
  ⟨0, 0, 0, 0, 200, ⟨0, by norm_num⟩, ⟨0, by norm_num⟩, 0, [], 0, 0⟩

/-- An MC-truth row whose `partOriginMCTruth` byte is 200, a value outside
the nine-member `ParticleOriginMCTruth` enumeration. -/
def outOfRangeOriginRow : FDMCParticleRow := ⟨200, 0, 0, 0, 0⟩

/-- A one-row particle table whose only row lists its own index (0) in its
children column. -/
def selfChildTable : List FDParticleRow :=
  [⟨0, 0, 0, 0, 0, ⟨0, by norm_num⟩, ⟨0, by norm_num⟩, 0, [0], 0, 0⟩]

namespace femtodreamparticle

/-- Rounding is exact at 1: the quotient of two equal nonzero counts. -/
theorem roundB32_one : roundB32 1 = 1 := by
  have h1 : ¬ (1 : ℚ) ≤ 0 := by norm_num
  simp only [roundB32, if_neg h1, Int.log_one_right]
  have hu : (1 : ℚ) / 2 ^ ((0 : ℤ) - 23) = 2 ^ (23 : ℕ) := by
    rw [zero_sub, zpow_neg, one_div, inv_inv]
    norm_num
  rw [hu]
  have hfl : ⌊((2 : ℚ) ^ (23 : ℕ))⌋ = 2 ^ (23 : ℕ) := by
    rw [show ((2 : ℚ) ^ (23 : ℕ)) = ((2 ^ (23 : ℕ) : ℤ) : ℚ) by push_cast; ring]
    exact Int.floor_intCast _
  rw [hfl]
  have hfrac : (2 : ℚ) ^ (23 : ℕ) - ((2 ^ (23 : ℕ) : ℤ) : ℚ) < 1 / 2 := by
    push_cast; norm_num
  rw [if_pos hfrac]
  rw [zero_sub, zpow_neg]
  push_cast
  norm_num

end femtodreamparticle

/-- C1: the derived momentum components are exactly `pt * sin(phi)`,
`pt * cos(phi)`, `pt * sinh(eta)` and `pt * cosh(eta)`, each a pure
function of only the stored `(pt, eta, phi)` columns it names. -/
theorem momentum_components_formulas :
    ∀ pt eta phi : ℝ,
      femtodreamparticle.Px pt phi = pt * Real.sin phi ∧
      femtodreamparticle.Py pt phi = pt * Real.cos phi ∧
      femtodreamparticle.Pz pt eta = pt * Real.sinh eta ∧
      femtodreamparticle.P pt eta = pt * Real.cosh eta :=
  fun _ _ _ => ⟨rfl, rfl, rfl, rfl⟩

/-- C2: the derived polar angle is `2 * atan(exp(-eta))`, a function of
the stored pseudorapidity only; for every eta it lies strictly between 0
and pi, and at eta = 0 it equals pi / 2. -/
theorem theta_formula_range_and_midpoint :
    (∀ eta : ℝ, femtodreamparticle.Theta eta = 2 * Real.arctan (Real.exp (-eta))) ∧
    (∀ eta : ℝ, 0 < femtodreamparticle.Theta eta ∧
      femtodreamparticle.Theta eta < Real.pi) ∧
    femtodreamparticle.Theta 0 = Real.pi / 2 := by
  refine ⟨fun _ => rfl, fun eta => ?_, ?_⟩
  · have hpos : 0 < Real.arctan (Real.exp (-eta)) := by
      have h := Real.arctan_strictMono (Real.exp_pos (-eta))
      rwa [Real.arctan_zero] at h
    have hlt : Real.arctan (Real.exp (-eta)) < Real.pi / 2 :=
      Real.arctan_lt_pi_div_two _
    constructor
    · simp only [femtodreamparticle.Theta]
      linarith
    · simp only [femtodreamparticle.Theta]
      linarith
  · simp only [femtodreamparticle.Theta, neg_zero, Real.exp_zero, Real.arctan_one]
    ring

/-- C3: for every `(pt, eta, phi)` triple, the derived momentum
components satisfy the Pythagorean identity `px^2 + py^2 + pz^2 = p^2`
with `p = pt * cosh(eta)` the derived total momentum (exact over the
reals, hence within any floating-point tolerance). -/
theorem momentum_pythagorean :
    ∀ pt eta phi : ℝ,
      femtodreamparticle.Px pt phi ^ 2 + femtodreamparticle.Py pt phi ^ 2 +
        femtodreamparticle.Pz pt eta ^ 2 = femtodreamparticle.P pt eta ^ 2 := by
  intro pt eta phi
  have h1 : Real.sin phi ^ 2 + Real.cos phi ^ 2 = 1 := Real.sin_sq_add_cos_sq phi
  have h2 : Real.cosh eta ^ 2 = Real.sinh eta ^ 2 + 1 := Real.cosh_sq eta
  simp only [femtodreamparticle.Px, femtodreamparticle.Py, femtodreamparticle.Pz,
    femtodreamparticle.P]
  nlinarith [h1, h2]

/-- C8: at the input `pt = 1, eta = 0, phi = 0` the derived accessors
return `px = 0`, `py = 1`, `pz = 0`, `p = 1` and polar angle `pi / 2`. -/
theorem kinematics_at_unit_input :
    femtodreamparticle.Px 1 0 = 0 ∧ femtodreamparticle.Py 1 0 = 1 ∧
    femtodreamparticle.Pz 1 0 = 0 ∧ femtodreamparticle.P 1 0 = 1 ∧
    femtodreamparticle.Theta 0 = Real.pi / 2 := by
  refine ⟨by simp [femtodreamparticle.Px], by simp [femtodreamparticle.Py],
    by simp [femtodreamparticle.Pz], by simp [femtodreamparticle.P], ?_⟩
  simp only [femtodreamparticle.Theta, neg_zero, Real.exp_zero, Real.arctan_one]
  ring

/-- C10: `TempFitVarName` has `kNParticleTypes - 1 = 5` entries while six
particle types are declared, so indexing it with `kCharmHadron = 5` is
out of bounds: no template-fit-variable name exists for charm hadrons. -/
theorem tempFitVarName_misses_charm_hadron :
    femtodreamparticle.TempFitVarName.length =
      femtodreamparticle.kNParticleTypes - 1 ∧
    femtodreamparticle.TempFitVarName.length = 5 ∧
    femtodreamparticle.kNParticleTypes = 6 ∧
    femtodreamparticle.kCharmHadron = 5 ∧
    ¬ femtodreamparticle.kCharmHadron < femtodreamparticle.TempFitVarName.length ∧
    femtodreamparticle.TempFitVarName.get? femtodreamparticle.kCharmHadron = none := by
  decide

/-- C9: `ParticleOriginMCTruthName` is declared with nine slots but only
seven are initialised (the last two are empty), and the names are
misaligned with the enumeration after index 4: slot `kWrongCollision = 5`
holds the Lambda-daughter name, slot `kSecondaryDaughterLambda = 6` holds
the Sigma-plus-daughter name, slots 7 and 8 are empty, and for every
origin value of 5 or greater the slot does not hold that origin's name. -/
theorem particleOriginMCTruthName_misaligned :
    femtodreamMCparticle.ParticleOriginMCTruthName.length =
      femtodreamMCparticle.kNOriginMCTruthTypes ∧
    (femtodreamMCparticle.ParticleOriginMCTruthName.filter
      (fun s => s ≠ "")).length = 7 ∧
    femtodreamMCparticle.ParticleOriginMCTruthName.get?
      femtodreamMCparticle.kWrongCollision = some "_SecondaryDaughterLambda" ∧
    femtodreamMCparticle.ParticleOriginMCTruthName.get?
      femtodreamMCparticle.kSecondaryDaughterLambda =
        some "_SecondaryDaughterSigmaPlus" ∧
    femtodreamMCparticle.ParticleOriginMCTruthName.get?
      femtodreamMCparticle.kSecondaryDaughterSigmaplus = some "" ∧
    femtodreamMCparticle.ParticleOriginMCTruthName.get?
      femtodreamMCparticle.kElse = some "" ∧
    ∀ o : Fin 9, 5 ≤ o.val →
      femtodreamMCparticle.ParticleOriginMCTruthName.get? o.val ≠
        some (femtodreamMCparticle.intendedOriginName o) := by
  decide

/-- Witness for C9 at the concrete origin value `kWrongCollision = 5`:
slot 5 does not hold that origin's name. -/
theorem particleOriginMCTruthName_misaligned_witness :
    femtodreamMCparticle.ParticleOriginMCTruthName.get? (5 : Fin 9).val ≠
      some (femtodreamMCparticle.intendedOriginName 5) :=
  particleOriginMCTruthName_misaligned.2.2.2.2.2.2 5 (by decide)

/-- C4 counterexample: the claim states the ratio equals 1.0 whenever
crossed rows equals findable clusters, but at crossed rows = findable
clusters = 0 the binary32 division `0.0f / 0.0f` yields NaN, not 1.0. -/
theorem crossedRowsRatio_not_one_when_both_zero :
    ¬ ∀ tpcNClsFindable tpcNClsCrossedRows : Fin 256,
        tpcNClsCrossedRows = tpcNClsFindable →
        femtodreamparticle.tpcCrossedRowsOverFindableCls
          tpcNClsFindable tpcNClsCrossedRows = Float32Val.finite 1 := by
  intro h
  exact absurd (h 0 0 rfl) (by decide)

/-- C4 (amended): the ratio is the binary32 division of the two stored
byte counts; it equals exactly 1.0 whenever crossed rows equals findable
clusters and findable clusters is nonzero, and when findable clusters is
0 the result is positive infinity or NaN. -/
theorem crossedRowsRatio_spec (tpcNClsFindable tpcNClsCrossedRows : Fin 256) :
    (tpcNClsCrossedRows = tpcNClsFindable → tpcNClsFindable.val ≠ 0 →
      femtodreamparticle.tpcCrossedRowsOverFindableCls
        tpcNClsFindable tpcNClsCrossedRows = Float32Val.finite 1) ∧
    (tpcNClsFindable.val = 0 →
      femtodreamparticle.tpcCrossedRowsOverFindableCls
          tpcNClsFindable tpcNClsCrossedRows = Float32Val.posInf ∨
      femtodreamparticle.tpcCrossedRowsOverFindableCls
          tpcNClsFindable tpcNClsCrossedRows = Float32Val.nan) := by
  constructor
  · intro hcf hf
    subst hcf
    simp only [femtodreamparticle.tpcCrossedRowsOverFindableCls, if_neg hf]
    have hq : ((tpcNClsCrossedRows.val : ℚ) / (tpcNClsCrossedRows.val : ℚ)) = 1 :=
      div_self (by exact_mod_cast hf)
    rw [hq, femtodreamparticle.roundB32_one]
  · intro hf
    simp only [femtodreamparticle.tpcCrossedRowsOverFindableCls, if_pos hf]
    by_cases hc : tpcNClsCrossedRows.val = 0
    · right
      rw [if_pos hc]
    · left
      rw [if_neg hc]

/-- Witness for C4 at the concrete counts 7 / 7: the ratio is exactly 1. -/
theorem crossedRowsRatio_spec_witness :
    femtodreamparticle.tpcCrossedRowsOverFindableCls 7 7 = Float32Val.finite 1 :=
  (crossedRowsRatio_spec 7 7).1 rfl (by decide)

/-- C5 counterexample: the schema does not restrict the particle-type and
MC-origin bytes to their enumerations; the concrete rows storing the byte
200 refute the claim that every stored value is in range. -/
theorem enum_fields_not_restricted :
    ¬ ((∀ r : FDParticleRow,
          r.partType.val < femtodreamparticle.kNParticleTypes) ∧
       (∀ m : FDMCParticleRow,
          m.partOriginMCTruth.val < femtodreamMCparticle.kNOriginMCTruthTypes)) := by
  intro h
  exact absurd (h.1 outOfRangePartTypeRow) (by decide)

/-- C5 (amended): the enumerations declare six particle types and nine MC
origins, but `partType` and `partOriginMCTruth` are stored as plain
unsigned 8-bit columns: every byte value, in range or not, is storable. -/
theorem enum_fields_admit_any_byte :
    femtodreamparticle.kNParticleTypes = 6 ∧
    femtodreamMCparticle.kNOriginMCTruthTypes = 9 ∧
    ∀ v : Fin 256,
      (∃ r : FDParticleRow, r.partType = v) ∧
      (∃ m : FDMCParticleRow, m.partOriginMCTruth = v) :=
  ⟨rfl, rfl, fun v =>
    ⟨⟨⟨0, 0, 0, 0, v, ⟨0, by norm_num⟩, ⟨0, by norm_num⟩, 0, [], 0, 0⟩, rfl⟩,
     ⟨⟨v, 0, 0, 0, 0⟩, rfl⟩⟩⟩

/-- C6 counterexample: the one-row table whose row 0 lists index 0 among
its children refutes the claim that a particle's child-index list never
contains its own row index. -/
theorem children_may_contain_self :
    ¬ ∀ (t : List FDParticleRow) (i : Nat) (h : i < t.length),
        (i : ℤ) ∉ (t.get ⟨i, h⟩).childrenIds := by
  intro h
  exact absurd (h selfChildTable 0 (by decide)) (by decide)

/-- C6 (amended): the children column is a plain self-index array and the
schema performs no verification on construction: any list of indices,
including one containing the row's own index, is storable. -/
theorem childrenIds_unconstrained :
    ∀ l : List ℤ, ∃ r : FDParticleRow, r.childrenIds = l :=
  fun l =>
    ⟨⟨0, 0, 0, 0, 0, ⟨0, by norm_num⟩, ⟨0, by norm_num⟩, 0, l, 0, 0⟩, rfl⟩

/-- C7 counterexample: the tags are not all four to eight characters
long: the very first table pairs the 3-character origin "AOD" with the
11-character description "FDCOLLISION". -/
theorem table_tags_not_four_to_eight :
    ¬ ∀ t ∈ declaredTables,
        (4 ≤ t.origin.length ∧ t.origin.length ≤ 8) ∧
        (4 ≤ t.description.length ∧ t.description.length ≤ 8) := by
  intro h
  exact absurd (h ⟨"FDCollisions", "AOD", "FDCOLLISION"⟩ (by decide)) (by decide)

/-- C7 (amended): every declared table carries the 3-character origin tag
"AOD", the description tags are pairwise distinct across the file, and
each description tag is four to fifteen characters long. -/
theorem table_tags_spec :
    (∀ t ∈ declaredTables, t.origin = "AOD" ∧ t.origin.length = 3) ∧
    (declaredTables.map TableDecl.description).Nodup ∧
    (∀ t ∈ declaredTables,
      4 ≤ t.description.length ∧ t.description.length ≤ 15) := by
  decide

/-- Witness for C7 at the concrete mixing-hash table: its origin tag is
"AOD" and its description tag "HASH" has four characters. -/
theorem table_tags_spec_witness :
    TableDecl.origin ⟨"Hashes", "AOD", "HASH"⟩ = "AOD" ∧
    String.length (TableDecl.description ⟨"Hashes", "AOD", "HASH"⟩) ≤ 15 :=
  ⟨(table_tags_spec.1 ⟨"Hashes", "AOD", "HASH"⟩ (by decide)).1,
   (table_tags_spec.2.2 ⟨"Hashes", "AOD", "HASH"⟩ (by decide)).2⟩

end o2.aod
